import Mathlib

/-!
Verification of the kadugu peer-to-peer internet-sharing tool.

Shallow embedding of `src/main.rs`: the access-control gate and sharer-side
acceptance loop (`handle_incoming_streams`), the user-side local listener loop
(`portforward_connection_handler`), the orchestrator event loop of `main`,
identity loading (`get_identity`), and CLI mode resolution.  External effects
(TCP accept results, overlay stream-open results, bidirectional-copy results,
file reads/writes, peer-id parsing) are passed in explicitly as data; the
definitions mirror the Rust control flow over them.
-/

namespace Kadugu

/-- Character-list prefix test, the auxiliary step of Rust substring search. -/
def startsWith : List Char → List Char → Bool
  | [], _ => true
  | _ :: _, [] => false
  | n :: ns, h :: hs => n == h && startsWith ns hs

/-- `containsSub needle hay` is true iff `needle` occurs contiguously in `hay`. -/
def containsSub (needle : List Char) : List Char → Bool
  | [] => needle.isEmpty
  | c :: rest => startsWith needle (c :: rest) || containsSub needle rest

/-- Rust `haystack.contains(needle)`: substring containment on strings. -/
def strContains (haystack needle : String) : Bool :=
  containsSub needle.data haystack.data

/-- The per-entry acceptance loop of `handle_incoming_streams` (main.rs:303-309):
`is_accepted` starts true; for each ACL entry, `accepted_id.contains(&peer_id_str)`
(the entry contains the peer id string) sets it true and breaks; otherwise it is
set to false and the loop continues. -/
def acl_loop (peerIdStr : String) : List String → Bool → Bool
  | [], acc => acc
  | e :: rest, _ =>
    if strContains e peerIdStr then true else acl_loop peerIdStr rest false

/-- The acceptance decision of the sharer-side loop (main.rs:301-309). -/
def is_accepted (acl : List String) (peerIdStr : String) : Bool :=
  acl_loop peerIdStr acl true

/-- Modelled from the spec's words, for comparison with `is_accepted`:
"accept if the ACL is empty, else accept iff at least one ACL entry is a
substring of the peer identifier". -/
def spec_accepts (acl : List String) (peerIdStr : String) : Bool :=
  acl.isEmpty || acl.any (fun e => strContains peerIdStr e)

/-- Log lines emitted by a tunnel-bridge session or the user-side listener loop. -/
inductive LogEntry where
  | openStreamError
  | acceptedLocalConn
  | copyError (msg : String)
  | byteCounts (fromP2p fromApp : Nat)
deriving DecidableEq

/-- Logging after `tokio::io::copy_bidirectional` (main.rs:277-291 and 322-335):
on success log the two byte counts, on failure log only the error and return. -/
def session_copy_logs (copyResult : Except String (Nat × Nat)) : List LogEntry :=
  match copyResult with
  | Except.ok (fromP2p, fromApp) => [LogEntry.byteCounts fromP2p fromApp]
  | Except.error e => [LogEntry.copyError e]

/-- Whether a log entry reports the transferred byte counts. -/
def isByteCountLog : LogEntry → Bool
  | LogEntry.byteCounts _ _ => true
  | _ => false

/-- Outcome of one spawned sharer-side session task. -/
inductive SessionOutcome where
  | panicked (msg : String)
  | finished (logs : List LogEntry)
deriving DecidableEq

/-- Sharer-side spawned session (main.rs:316-336): `TcpStream::connect` to the
local proxy with `.unwrap()` (panic of this one task on failure), then the
bidirectional copy with its logging. -/
def sharer_session (connectResult : Except String Unit)
    (copyResult : Except String (Nat × Nat)) : SessionOutcome :=
  match connectResult with
  | Except.error e => SessionOutcome.panicked e
  | Except.ok _ => SessionOutcome.finished (session_copy_logs copyResult)

/-- One inbound (peer, stream) pair together with the I/O results its session
task would observe. -/
structure InboundStream where
  peer : String
  connectResult : Except String Unit
  copyResult : Except String (Nat × Nat)

/-- What the acceptance loop does with one inbound pair: reject (warn log, the
stream is discarded, no local-proxy TCP connection) or run a session. -/
inductive SharerStep where
  | rejected (peer : String)
  | session (peer : String) (outcome : SessionOutcome)
deriving DecidableEq

/-- The sharer-side acceptance loop `handle_incoming_streams` (main.rs:296-338),
as the list of steps taken for a finite prefix of the inbound stream. -/
def handle_incoming_streams (acl : List String) (inbound : List InboundStream) :
    List SharerStep :=
  inbound.map (fun i =>
    if is_accepted acl i.peer then
      SharerStep.session i.peer (sharer_session i.connectResult i.copyResult)
    else SharerStep.rejected i.peer)

/-- `stream::OpenStreamError` as matched in main.rs:261-268. -/
inductive OpenStreamError where
  | unsupportedProtocol
  | otherOpenError (msg : String)
deriving DecidableEq

/-- The I/O results one iteration of the user-side listener loop observes. -/
structure IterationInput where
  acceptResult : Except String Unit
  openResult : Except OpenStreamError Unit
  copyResult : Except String (Nat × Nat)

/-- Outcome of one iteration of the user-side listener loop. -/
inductive BodyOutcome where
  | panicked (msg : String)
  | continued (logs : List LogEntry) (spawnedSession : Bool)
deriving DecidableEq

/-- One iteration of the loop in `portforward_connection_handler`
(main.rs:255-293): `listener.accept().await.unwrap()` (panic on accept error),
then `control.open_stream` with both error arms logging and continuing, then a
spawned session running the bidirectional copy with its logging. -/
def portforward_loop_body (inp : IterationInput) : BodyOutcome :=
  match inp.acceptResult with
  | Except.error e => BodyOutcome.panicked e
  | Except.ok _ =>
    match inp.openResult with
    | Except.error OpenStreamError.unsupportedProtocol =>
        BodyOutcome.continued [LogEntry.openStreamError] false
    | Except.error (OpenStreamError.otherOpenError _) =>
        BodyOutcome.continued [LogEntry.openStreamError] false
    | Except.ok _ =>
        BodyOutcome.continued
          (LogEntry.acceptedLocalConn :: session_copy_logs inp.copyResult) true

/-- The user-side listener loop over a finite prefix of accept attempts:
accumulated logs, and `some msg` if the loop died in a panic (in which case
later iterations are never reached). -/
def portforward_loop : List IterationInput → List LogEntry × Option String
  | [] => ([], none)
  | inp :: rest =>
    match portforward_loop_body inp with
    | BodyOutcome.panicked e => ([], some e)
    | BodyOutcome.continued logs _ =>
        (logs ++ (portforward_loop rest).1, (portforward_loop rest).2)

/-- The `Mode` enum of main.rs:27-32. -/
inductive Mode where
  | Sharer
  | User
  | PrintPeerId
  | Undefined
deriving DecidableEq

/-- One component of a multiaddress; the hard-coded relay address is a list of
opaque components, and `.with(Protocol::P2pCircuit)` / `.with(Protocol::P2p(id))`
append the corresponding components. -/
inductive Proto where
  | comp (s : String)
  | p2pCircuit
  | p2p (peer : String)
deriving DecidableEq

abbrev Multiaddr := List Proto

/-- `relay_address.clone().with(Protocol::P2pCircuit).with(Protocol::P2p(peer))`
(main.rs:204-209 and 224-230). -/
def relayCircuitAddr (relayAddr : Multiaddr) (peer : String) : Multiaddr :=
  relayAddr ++ [Proto.p2pCircuit, Proto.p2p peer]

/-- The swarm events distinguished by the event loop of `main` (main.rs:186-242);
`outgoingConnectionError` carries the optional failed peer, `identifyReceived`
the peer the identify info came from. -/
inductive Event where
  | externalAddrExpired
  | reservationReqAccepted (relayPeer : String)
  | outgoingConnectionError (peer : Option String)
  | identifyReceived (peer : String)
  | otherEvent
deriving DecidableEq

/-- The two mutable flags of the event loop (main.rs:180-181). -/
structure LoopState where
  sharer_dial_complete : Bool
  relay_reservation_complete : Bool
deriving DecidableEq

/-- Both flags start false (main.rs:180-181). -/
def initState : LoopState :=
  { sharer_dial_complete := false, relay_reservation_complete := false }

/-- Side effects the event loop issues on the swarm. -/
inductive Action where
  | dial (addr : Multiaddr)
  | listenOn (addr : Multiaddr)
  | spawnPortforwardHandler (peer : String)
  | logReservation (relayPeer : String)
  | traceOther
deriving DecidableEq

/-- One dispatch of the event loop's `match event` (main.rs:186-242): the updated
flags and the actions issued. -/
def step (mode : Mode) (sharerPeerId : String) (relayAddr : Multiaddr)
    (s : LoopState) (e : Event) : LoopState × List Action :=
  match e with
  | Event.externalAddrExpired =>
      ({ s with relay_reservation_complete := false }, [])
  | Event.reservationReqAccepted rp =>
      ({ s with relay_reservation_complete := true }, [Action.logReservation rp])
  | Event.outgoingConnectionError peerFailed =>
      if peerFailed.any (fun id => id == sharerPeerId) then
        (s, [Action.dial (relayCircuitAddr relayAddr sharerPeerId)])
      else (s, [])
  | Event.identifyReceived _ =>
      match mode with
      | Mode.Sharer =>
          if s.relay_reservation_complete = false then
            (s, [Action.listenOn (relayAddr ++ [Proto.p2pCircuit])])
          else (s, [])
      | _ =>
          if s.sharer_dial_complete = false then
            ({ s with sharer_dial_complete := true },
             [Action.dial (relayCircuitAddr relayAddr sharerPeerId),
              Action.spawnPortforwardHandler sharerPeerId])
          else (s, [])
  | Event.otherEvent => (s, [Action.traceOther])

/-- The event loop over a finite prefix of the event stream: final flags and
the concatenation of all actions issued, in order. -/
def run (mode : Mode) (sharerPeerId : String) (relayAddr : Multiaddr)
    (s : LoopState) : List Event → LoopState × List Action
  | [] => (s, [])
  | e :: es =>
    ((run mode sharerPeerId relayAddr (step mode sharerPeerId relayAddr s e).1 es).1,
     (step mode sharerPeerId relayAddr s e).2
       ++ (run mode sharerPeerId relayAddr (step mode sharerPeerId relayAddr s e).1 es).2)

/-- Events of the two kinds claim C4 ranges over. -/
def isReservationKind : Event → Bool
  | Event.externalAddrExpired => true
  | Event.reservationReqAccepted _ => true
  | _ => false

/-- Whether an event is a relay-reservation-accepted event. -/
def isAcceptedKind : Event → Bool
  | Event.reservationReqAccepted _ => true
  | _ => false

/-- Whether an event is an identify-received event. -/
def isIdentifyKind : Event → Bool
  | Event.identifyReceived _ => true
  | _ => false

/-- I/O error kinds for identity-file access; `notFound` is "file absent", the
others are genuine I/O failures. -/
inductive IOErrorKind where
  | notFound
  | permissionDenied
  | otherErr (msg : String)
deriving DecidableEq

/-- Outcome of `get_identity()` as observed at `main`'s `.unwrap()` call:
a key pair, a panic from the decode `.unwrap()`, or a propagated write error. -/
inductive IdentityOutcome where
  | ok (keypair : List Nat)
  | panicDecode
  | errWrite (e : IOErrorKind)
deriving DecidableEq

/-- `get_identity` (main.rs:341-355): on `read` success, decode with `.unwrap()`
(panic if the bytes are not a valid keypair encoding); on ANY `read` error,
generate a fresh key pair and persist it, propagating a write error with `?`. -/
def get_identity (decode : List Nat → Option (List Nat))
    (readResult : Except IOErrorKind (List Nat)) (fresh : List Nat)
    (writeResult : Except IOErrorKind Unit) : IdentityOutcome :=
  match readResult with
  | Except.ok contents =>
    match decode contents with
    | some kp => IdentityOutcome.ok kp
    | none => IdentityOutcome.panicDecode
  | Except.error _ =>
    match writeResult with
    | Except.ok _ => IdentityOutcome.ok fresh
    | Except.error e => IdentityOutcome.errWrite e

/-- Whether `get_identity().unwrap()` at main.rs:122 aborts the process. -/
def main_identity_aborts : IdentityOutcome → Bool
  | IdentityOutcome.ok _ => false
  | _ => true

/-- The CLI matches consumed by mode resolution (main.rs:92-115). -/
structure CliMatches where
  sharer : Option (List String)
  user : Option String
  printPeerId : Bool
  exposeLan : Bool

/-- The startup configuration produced by mode resolution. -/
structure Config where
  mode : Mode
  accepted_peer_ids : List String
  sharer_peer_id : String
  proxy_listen_addr : List Nat × Nat
deriving DecidableEq

/-- `SocketAddr::from(([127, 0, 0, 1], 8080))` (main.rs:90). -/
def loopback8080 : List Nat × Nat := ([127, 0, 0, 1], 8080)

/-- `SocketAddr::from(([0, 0, 0, 0], 8080))` (main.rs:109). -/
def wildcard8080 : List Nat × Nat := ([0, 0, 0, 0], 8080)

/-- Mode resolution before the `print-peer-id` override (main.rs:87-111):
the sharer branch wins over the user branch; only the user branch parses the
target peer id (`none` models the fatal `?` on a malformed id) and reads the
expose-lan flag. -/
def resolve_mode_core (parsePeerId : String → Option String)
    (randomPeerId : String) (m : CliMatches) : Option Config :=
  let base : Config :=
    { mode := Mode.Undefined, accepted_peer_ids := [],
      sharer_peer_id := randomPeerId, proxy_listen_addr := loopback8080 }
  match m.sharer with
  | some ids => some { base with mode := Mode.Sharer, accepted_peer_ids := ids }
  | none =>
    match m.user with
    | some idStr =>
      match parsePeerId idStr with
      | none => none
      | some pid =>
        let addr := if m.exposeLan then wildcard8080 else loopback8080
        some { base with
                mode := Mode.User
                sharer_peer_id := pid
                proxy_listen_addr := addr }
    | none => some base

/-- Full mode resolution (main.rs:87-115): the core resolution followed by the
`print-peer-id` override. -/
def resolve_cli (parsePeerId : String → Option String) (randomPeerId : String)
    (m : CliMatches) : Option Config :=
  (resolve_mode_core parsePeerId randomPeerId m).map fun c =>
    if m.printPeerId then { c with mode := Mode.PrintPeerId } else c

/-! ## Helper lemmas -/

theorem acl_loop_false_eq_any (peer : String) :
    ∀ l : List String, acl_loop peer l false = l.any (fun e => strContains e peer) := by
  intro l
  induction l with
  | nil => rfl
  | cons e rest ih =>
    by_cases hc : strContains e peer = true
    · simp [acl_loop, hc]
    · simp [acl_loop, hc, ih]

theorem is_accepted_iff (acl : List String) (peer : String) :
    is_accepted acl peer = true ↔ acl = [] ∨ ∃ e ∈ acl, strContains e peer = true := by
  cases acl with
  | nil => simp [is_accepted, acl_loop]
  | cons a rest =>
    have h1 : is_accepted (a :: rest) peer
        = (a :: rest).any (fun e => strContains e peer) := by
      by_cases hc : strContains a peer = true
      · simp [is_accepted, acl_loop, hc]
      · simp [is_accepted, acl_loop, hc, acl_loop_false_eq_any]
    rw [h1]
    simp [List.any_eq_true]

/-! ## Claims C1, C2, C6, C7 -/

/-- Claim C1 counterexample: with ACL `["abc"]` the claim (and `spec_accepts`,
its wording) says peer `"abc123"` is accepted, but the code's `is_accepted`
rejects it — `accepted_id.contains(&peer_id_str)` tests containment in the
reversed direction — so the acceptance loop takes the warn-and-discard step. -/
theorem C1_counterexample :
    spec_accepts ["abc"] "abc123" = true
    ∧ is_accepted ["abc"] "abc123" = false
    ∧ handle_incoming_streams ["abc"]
        [{ peer := "abc123", connectResult := Except.ok (),
           copyResult := Except.ok (0, 0) }]
        = [SharerStep.rejected "abc123"] := by
  refine ⟨?_, ?_, ?_⟩ <;> decide

/-- Claim C1 (amended): an inbound peer is accepted iff the ACL is empty or the
peer's textual identifier is a substring of at least one ACL entry; a rejected
peer takes the warn step and no session (hence no local-proxy TCP connection) is
created for it, and the loop goes on to the remaining inbound pairs. -/
theorem C1_acl_gate (acl : List String) (i : InboundStream)
    (rest : List InboundStream) :
    (is_accepted acl i.peer = true ↔ acl = [] ∨ ∃ e ∈ acl, strContains e i.peer = true)
    ∧ handle_incoming_streams acl (i :: rest)
        = (if is_accepted acl i.peer then
             SharerStep.session i.peer (sharer_session i.connectResult i.copyResult)
           else SharerStep.rejected i.peer) :: handle_incoming_streams acl rest :=
  ⟨is_accepted_iff acl i.peer, by simp [handle_incoming_streams]⟩

/-- Claim C2 (code bug): a failed local TCP accept attempt hits
`listener.accept().await.unwrap()` (main.rs:256), so the iteration panics and
the listener loop dies; the subsequent valid accept attempt contributes
nothing — contradicting the claim that the loop survives and continues. -/
theorem C2_accept_unwrap :
    portforward_loop_body
        { acceptResult := Except.error "accept failed", openResult := Except.ok (),
          copyResult := Except.ok (3, 4) }
      = BodyOutcome.panicked "accept failed"
    ∧ portforward_loop
        [{ acceptResult := Except.error "accept failed", openResult := Except.ok (),
           copyResult := Except.ok (3, 4) },
         { acceptResult := Except.ok (), openResult := Except.ok (),
           copyResult := Except.ok (3, 4) }]
      = ([], some "accept failed") :=
  ⟨rfl, rfl⟩

/-- Claim C6 counterexample: a session whose bidirectional copy fails logs only
the error; no byte-count log entry is produced, contradicting the claim that
byte counts are logged on completion "whether the bidirectional copy succeeds
or fails". -/
theorem C6_counterexample :
    session_copy_logs (Except.error "connection reset")
        = [LogEntry.copyError "connection reset"]
    ∧ (session_copy_logs (Except.error "connection reset")).all
        (fun l => !(isByteCountLog l)) = true :=
  ⟨rfl, rfl⟩

/-- Claim C6 (amended): on successful completion a session logs the byte counts
in each direction; on failure it logs only the error; a failing session never
stops the owning loop — the sharer acceptance loop still takes one step per
inbound pair, and the user-side listener iteration still completes with
`continued`. -/
theorem C6_session_logging (acl : List String) (pre post : List InboundStream)
    (i : InboundStream) :
    (∀ a b, i.copyResult = Except.ok (a, b) →
        session_copy_logs i.copyResult = [LogEntry.byteCounts a b])
    ∧ (∀ msg, i.copyResult = Except.error msg →
        session_copy_logs i.copyResult = [LogEntry.copyError msg])
    ∧ (handle_incoming_streams acl (pre ++ i :: post)).length
        = pre.length + 1 + post.length
    ∧ portforward_loop_body
        { acceptResult := Except.ok (), openResult := Except.ok (),
          copyResult := i.copyResult }
      = BodyOutcome.continued
          (LogEntry.acceptedLocalConn :: session_copy_logs i.copyResult) true := by
  refine ⟨?_, ?_, ?_, rfl⟩
  · intro a b hab; rw [hab]; rfl
  · intro msg hm; rw [hm]; rfl
  · simp [handle_incoming_streams]
    omega

/-- Claim C6 witness: a concrete successful session logs its two byte counts. -/
theorem C6_session_logging_witness :
    session_copy_logs (Except.ok (3, 5)) = [LogEntry.byteCounts 3 5] :=
  (C6_session_logging [] [] []
      { peer := "p", connectResult := Except.ok (),
        copyResult := Except.ok (3, 5) }).1 3 5 rfl

/-- Claim C7: when the overlay stream-open fails (unsupported protocol or any
other open error), the user-side listener iteration logs, spawns no session,
and the loop continues: the remaining iterations contribute exactly as they
would on their own, and the crash status is theirs alone. -/
theorem C7_open_error_isolated (e : OpenStreamError)
    (copyRes : Except String (Nat × Nat)) (rest : List IterationInput) :
    portforward_loop_body
        { acceptResult := Except.ok (), openResult := Except.error e,
          copyResult := copyRes }
      = BodyOutcome.continued [LogEntry.openStreamError] false
    ∧ portforward_loop
        ({ acceptResult := Except.ok (), openResult := Except.error e,
           copyResult := copyRes } :: rest)
      = (LogEntry.openStreamError :: (portforward_loop rest).1,
         (portforward_loop rest).2) := by
  cases e with
  | unsupportedProtocol =>
      exact ⟨rfl, by simp [portforward_loop, portforward_loop_body]⟩
  | otherOpenError msg =>
      exact ⟨rfl, by simp [portforward_loop, portforward_loop_body]⟩

/-! ## Claims C3, C4, C5: the orchestrator event loop -/

theorem getLast?_cons_isSome {α : Type} (f : α) (fs : List α) :
    ((f :: fs).getLast?).isSome = true := by
  induction fs generalizing f with
  | nil => rfl
  | cons g gs ih => rw [List.getLast?_cons_cons]; exact ih g

theorem step_dial_monotone (mode : Mode) (sp : String) (ra : Multiaddr)
    (s : LoopState) (e : Event) (hs : s.sharer_dial_complete = true) :
    (step mode sp ra s e).1.sharer_dial_complete = true := by
  cases e with
  | externalAddrExpired => simpa [step] using hs
  | reservationReqAccepted rp => simpa [step] using hs
  | outgoingConnectionError q =>
      by_cases hq : q.any (fun id => id == sp) = true
      · simp [step, hq, hs]
      · simp [step, hq, hs]
  | identifyReceived p =>
      cases mode with
      | Sharer =>
          by_cases hr : s.relay_reservation_complete = false
          · simp [step, hr, hs]
          · simp [step, hr, hs]
      | User => simp [step, hs]
      | PrintPeerId => simp [step, hs]
      | Undefined => simp [step, hs]
  | otherEvent => simpa [step] using hs

theorem run_user_after_dial (sp : String) (ra : Multiaddr) :
    ∀ (evs : List Event) (s : LoopState),
      (∀ e ∈ evs, isIdentifyKind e = true) → s.sharer_dial_complete = true →
      run Mode.User sp ra s evs = (s, []) := by
  intro evs
  induction evs with
  | nil => intro s _ _; rfl
  | cons e es ih =>
    intro s h hs
    have he : isIdentifyKind e = true := h e (List.mem_cons_self e es)
    have hes : ∀ x ∈ es, isIdentifyKind x = true :=
      fun x hx => h x (List.mem_cons_of_mem e hx)
    cases e with
    | identifyReceived p =>
      have hstep : step Mode.User sp ra s (Event.identifyReceived p) = (s, []) := by
        simp [step, hs]
      simp [run, hstep, ih s hes hs]
    | externalAddrExpired => simp [isIdentifyKind] at he
    | reservationReqAccepted rp => simp [isIdentifyKind] at he
    | outgoingConnectionError q => simp [isIdentifyKind] at he
    | otherEvent => simp [isIdentifyKind] at he

theorem run_reservation_aux (mode : Mode) (sp : String) (ra : Multiaddr) :
    ∀ (evs : List Event) (s : LoopState),
      (∀ e ∈ evs, isReservationKind e = true) →
      (run mode sp ra s evs).1.relay_reservation_complete
        = (evs.getLast?).elim s.relay_reservation_complete isAcceptedKind := by
  intro evs
  induction evs with
  | nil => intro s _; rfl
  | cons e es ih =>
    intro s h
    have he : isReservationKind e = true := h e (List.mem_cons_self e es)
    have hes : ∀ x ∈ es, isReservationKind x = true :=
      fun x hx => h x (List.mem_cons_of_mem e hx)
    have hrun : (run mode sp ra s (e :: es)).1
        = (run mode sp ra (step mode sp ra s e).1 es).1 := by
      simp [run]
    rw [hrun, ih (step mode sp ra s e).1 hes]
    cases es with
    | nil =>
      cases e with
      | externalAddrExpired => simp [step, isAcceptedKind]
      | reservationReqAccepted rp => simp [step, isAcceptedKind]
      | outgoingConnectionError q => simp [isReservationKind] at he
      | identifyReceived p => simp [isReservationKind] at he
      | otherEvent => simp [isReservationKind] at he
    | cons f fs =>
      rw [List.getLast?_cons_cons]
      cases hq : (f :: fs).getLast? with
      | none =>
          have hsome := getLast?_cons_isSome f fs
          rw [hq] at hsome
          simp at hsome
      | some x => simp [hq]

/-- Claim C3: in User mode, over any nonempty all-identify event sequence from
the initial state, the loop issues exactly one relay-circuit dial to the sharer
and exactly one local-listener spawn (on the first identify event), the
`sharer_dial_complete` flag ends true, and one step of the loop never resets a
true flag, whatever the mode, state, or event. -/
theorem C3_user_dial_once (sp : String) (ra : Multiaddr) (evs : List Event)
    (hne : evs ≠ []) (hall : ∀ e ∈ evs, isIdentifyKind e = true) :
    (run Mode.User sp ra initState evs).2
        = [Action.dial (relayCircuitAddr ra sp), Action.spawnPortforwardHandler sp]
    ∧ (run Mode.User sp ra initState evs).1.sharer_dial_complete = true
    ∧ (∀ (mode : Mode) (s : LoopState) (e : Event),
        s.sharer_dial_complete = true →
        (step mode sp ra s e).1.sharer_dial_complete = true) := by
  cases evs with
  | nil => exact absurd rfl hne
  | cons e es =>
    have he : isIdentifyKind e = true := hall e (List.mem_cons_self e es)
    have hes : ∀ x ∈ es, isIdentifyKind x = true :=
      fun x hx => hall x (List.mem_cons_of_mem e hx)
    cases e with
    | identifyReceived p =>
      have hstep : step Mode.User sp ra initState (Event.identifyReceived p)
          = ({ sharer_dial_complete := true, relay_reservation_complete := false },
             [Action.dial (relayCircuitAddr ra sp),
              Action.spawnPortforwardHandler sp]) := by
        simp [step, initState]
      have hrest := run_user_after_dial sp ra es
          { sharer_dial_complete := true, relay_reservation_complete := false }
          hes rfl
      refine ⟨?_, ?_, fun mode s e hs => step_dial_monotone mode sp ra s e hs⟩
      · simp [run, hstep, hrest]
      · simp [run, hstep, hrest]
    | externalAddrExpired => simp [isIdentifyKind] at he
    | reservationReqAccepted rp => simp [isIdentifyKind] at he
    | outgoingConnectionError q => simp [isIdentifyKind] at he
    | otherEvent => simp [isIdentifyKind] at he

/-- Claim C3 witness: two identify events, from the sharer and from another
peer; the loop's total output is one dial and one spawn. -/
theorem C3_user_dial_once_witness :
    (run Mode.User "P" [Proto.comp "relay"] initState
        [Event.identifyReceived "P", Event.identifyReceived "Q"]).2
      = [Action.dial (relayCircuitAddr [Proto.comp "relay"] "P"),
         Action.spawnPortforwardHandler "P"] :=
  (C3_user_dial_once "P" [Proto.comp "relay"]
      [Event.identifyReceived "P", Event.identifyReceived "Q"]
      (by decide) (by decide)).1

/-- Claim C4: over any sequence of external-address-expired and
relay-reservation-accepted events, the final `relay_reservation_complete` flag
is true iff the most recent event of the sequence is a reservation-accepted
event (false for the empty sequence). -/
theorem C4_reservation_flag (mode : Mode) (sp : String) (ra : Multiaddr)
    (evs : List Event) (hall : ∀ e ∈ evs, isReservationKind e = true) :
    (run mode sp ra initState evs).1.relay_reservation_complete
      = (evs.getLast?).any isAcceptedKind := by
  rw [run_reservation_aux mode sp ra evs initState hall]
  cases hq : evs.getLast? with
  | none => simp [hq, initState]
  | some x => simp [hq]

/-- Claim C4 witness: accepted, expired, accepted again ends with the flag
true; re-running after appending a duplicate expiry ends with it false. -/
theorem C4_reservation_flag_witness :
    (run Mode.Sharer "P" [] initState
        [Event.reservationReqAccepted "R", Event.externalAddrExpired,
         Event.reservationReqAccepted "R2"]).1.relay_reservation_complete = true
    ∧ (run Mode.Sharer "P" [] initState
        [Event.reservationReqAccepted "R", Event.externalAddrExpired,
         Event.externalAddrExpired]).1.relay_reservation_complete = false := by
  constructor
  · rw [C4_reservation_flag Mode.Sharer "P" []
        [Event.reservationReqAccepted "R", Event.externalAddrExpired,
         Event.reservationReqAccepted "R2"] (by decide)]
    decide
  · rw [C4_reservation_flag Mode.Sharer "P" []
        [Event.reservationReqAccepted "R", Event.externalAddrExpired,
         Event.externalAddrExpired] (by decide)]
    decide

/-- Claim C5: on an outbound-connection-failed event the loop's state is
unchanged and it issues exactly one re-dial through the relay-circuit address
(relay address + circuit marker + target peer id) iff the failed peer is
present and equals the configured sharer target; otherwise no action. -/
theorem C5_retry_on_dial_failure (mode : Mode) (sp : String) (ra : Multiaddr)
    (s : LoopState) (peerFailed : Option String) :
    step mode sp ra s (Event.outgoingConnectionError peerFailed)
      = (s, if peerFailed = some sp then
              [Action.dial (relayCircuitAddr ra sp)]
            else []) := by
  cases peerFailed with
  | none => simp [step]
  | some p =>
    by_cases hp : p = sp
    · simp [step, hp]
    · simp [step, hp]

/-! ## Claims C8, C9, C10: identity loading and CLI mode resolution -/

/-- Claim C8 counterexample: a genuine I/O failure reading the identity file
(permission denied, not "file absent") does NOT abort the process — the code's
`Err(_)` arm catches every read error and takes the create-new path, returning
the fresh key pair when the write succeeds. -/
theorem C8_counterexample :
    get_identity (fun _ => none) (Except.error IOErrorKind.permissionDenied) [7]
        (Except.ok ()) = IdentityOutcome.ok [7]
    ∧ main_identity_aborts (get_identity (fun _ => none)
        (Except.error IOErrorKind.permissionDenied) [7] (Except.ok ())) = false :=
  ⟨rfl, rfl⟩

/-- Claim C8 (amended): identity loading does not distinguish file-absent from
genuine read I/O failure — every read error takes the create-new path and the
process continues with the fresh key pair when persisting succeeds; only a
failure writing the new identity file aborts the process. -/
theorem C8_identity_read_failure (decode : List Nat → Option (List Nat))
    (e : IOErrorKind) (fresh : List Nat)
    (writeResult : Except IOErrorKind Unit) :
    (writeResult = Except.ok () →
        get_identity decode (Except.error e) fresh writeResult
            = IdentityOutcome.ok fresh
        ∧ main_identity_aborts
            (get_identity decode (Except.error e) fresh writeResult) = false)
    ∧ (∀ we, writeResult = Except.error we →
        get_identity decode (Except.error e) fresh writeResult
            = IdentityOutcome.errWrite we
        ∧ main_identity_aborts
            (get_identity decode (Except.error e) fresh writeResult) = true) := by
  constructor
  · intro hw; rw [hw]; exact ⟨rfl, rfl⟩
  · intro we hw; rw [hw]; exact ⟨rfl, rfl⟩

/-- Claim C8 witness: a not-found read error with a successful write yields the
fresh key pair, and a failed write aborts. -/
theorem C8_identity_read_failure_witness :
    get_identity (fun _ => none) (Except.error IOErrorKind.notFound) [7]
        (Except.ok ()) = IdentityOutcome.ok [7]
    ∧ main_identity_aborts
        (get_identity (fun _ => none) (Except.error IOErrorKind.notFound) [7]
          (Except.error (IOErrorKind.otherErr "disk full"))) = true :=
  ⟨((C8_identity_read_failure (fun _ => none) IOErrorKind.notFound [7]
      (Except.ok ())).1 rfl).1,
   (((C8_identity_read_failure (fun _ => none) IOErrorKind.notFound [7]
      (Except.error (IOErrorKind.otherErr "disk full"))).2
        (IOErrorKind.otherErr "disk full") rfl)).2⟩

/-- Claim C9: if both `--sharer` and `--user` are supplied, Sharer mode wins and
the `--user` value is never parsed — the result is independent of the parser,
so a malformed `--user` value is not fatal; and whenever `--print-peer-id` is
set, any successfully resolved configuration has mode PrintPeerId. -/
theorem C9_mode_precedence (parsePeerId : String → Option String) (rnd : String)
    (ids : List String) (userArg : Option String) (exposeFlag printFlag : Bool) :
    resolve_cli parsePeerId rnd
        { sharer := some ids, user := userArg, printPeerId := printFlag,
          exposeLan := exposeFlag }
      = some { mode := if printFlag then Mode.PrintPeerId else Mode.Sharer,
               accepted_peer_ids := ids, sharer_peer_id := rnd,
               proxy_listen_addr := loopback8080 }
    ∧ (∀ (m : CliMatches) (c : Config), m.printPeerId = true →
        resolve_cli parsePeerId rnd m = some c → c.mode = Mode.PrintPeerId) := by
  constructor
  · cases printFlag <;> rfl
  · intro m c hp hr
    unfold resolve_cli at hr
    simp only [hp, if_true] at hr
    rcases Option.map_eq_some'.mp hr with ⟨c0, hc0, hc⟩
    rw [← hc]

/-- Claim C9 witness: with both flags and a malformed `--user` value (under a
parser rejecting everything), resolution still succeeds in Sharer mode. -/
theorem C9_mode_precedence_witness :
    resolve_cli (fun _ => none) "rnd"
        { sharer := some ["id1"], user := some "malformed", printPeerId := false,
          exposeLan := false }
      = some { mode := Mode.Sharer, accepted_peer_ids := ["id1"],
               sharer_peer_id := "rnd", proxy_listen_addr := loopback8080 } := by
  have h := (C9_mode_precedence (fun _ => none) "rnd" ["id1"] (some "malformed")
      false false).1
  simpa using h

/-- Claim C10: a readable identity file whose contents do not decode as a valid
key-pair encoding panics in `Keypair::from_protobuf_encoding(..).unwrap()`
(aborting the process) instead of regenerating fresh key material. -/
theorem C10_corrupt_identity (decode : List Nat → Option (List Nat))
    (contents fresh : List Nat) (writeResult : Except IOErrorKind Unit)
    (h : decode contents = none) :
    get_identity decode (Except.ok contents) fresh writeResult
        = IdentityOutcome.panicDecode
    ∧ main_identity_aborts
        (get_identity decode (Except.ok contents) fresh writeResult) = true := by
  constructor
  · simp [get_identity, h]
  · simp [get_identity, h, main_identity_aborts]

/-- Claim C10 witness: a concrete corrupt file under a decoder rejecting its
bytes panics rather than producing a key pair. -/
theorem C10_corrupt_identity_witness :
    get_identity (fun _ => none) (Except.ok [0, 1, 2]) [7] (Except.ok ())
        = IdentityOutcome.panicDecode :=
  (C10_corrupt_identity (fun _ => none) [0, 1, 2] [7] (Except.ok ()) rfl).1

/-- Claim C1 witness: with an empty ACL every peer is accepted. -/
theorem C1_acl_gate_witness :
    is_accepted [] "anyone" = true :=
  (C1_acl_gate []
    { peer := "anyone", connectResult := Except.ok (),
      copyResult := Except.ok (0, 0) } []).1.mpr (Or.inl rfl)

/-- Claim C5 witness: a dial failure toward the sharer target triggers exactly
one relay-circuit re-dial; failures toward another peer or with no peer do not. -/
theorem C5_retry_on_dial_failure_witness :
    step Mode.User "P" [Proto.comp "relay"] initState
        (Event.outgoingConnectionError (some "P"))
      = (initState, [Action.dial (relayCircuitAddr [Proto.comp "relay"] "P")])
    ∧ step Mode.User "P" [Proto.comp "relay"] initState
        (Event.outgoingConnectionError (some "Q"))
      = (initState, [])
    ∧ step Mode.User "P" [Proto.comp "relay"] initState
        (Event.outgoingConnectionError none)
      = (initState, []) := by
  refine ⟨?_, ?_, ?_⟩
  · rw [C5_retry_on_dial_failure Mode.User "P" [Proto.comp "relay"] initState
        (some "P")]
    decide
  · rw [C5_retry_on_dial_failure Mode.User "P" [Proto.comp "relay"] initState
        (some "Q")]
    decide
  · rw [C5_retry_on_dial_failure Mode.User "P" [Proto.comp "relay"] initState none]
    decide

/-- Claim C7 witness: a concrete unsupported-protocol open failure yields a
log-and-continue iteration with no session spawned. -/
theorem C7_open_error_isolated_witness :
    portforward_loop_body
        { acceptResult := Except.ok (),
          openResult := Except.error OpenStreamError.unsupportedProtocol,
          copyResult := Except.ok (0, 0) }
      = BodyOutcome.continued [LogEntry.openStreamError] false :=
  (C7_open_error_isolated OpenStreamError.unsupportedProtocol
      (Except.ok (0, 0)) []).1

end Kadugu
